import Mathlib

/-
Verification development for the dynamic registration and dispatch engine in
compat/torch/library.h: the operator registry with dispatch-key fallback, the
class registry with constructor overload resolution by trial, and the
type-erased argument and result marshalling types.

Each C++ component is shallowly embedded as an executable Lean definition.
Exceptions become the Except monad: every throw site of the C++ code is one
Err constructor carrying the exact message string the code builds, and every
catch in the C++ code is a catch-all, so tagging errors by constructor does
not change any control flow.
-/

/-- Modelled from the spec: the external Value type (torch::IValue, declared
in ATen/core/ivalue.h which is not part of the analysed sources) is a closed
tagged union over none, boolean, integer, float, string and an
opaque-object-reference.  The float payload is left abstract because no claim
depends on float values; the object payload is a handle identifier. -/
inductive IValue where
  | none
  | bool (b : Bool)
  | int (n : Int)
  | flt
  | str (s : String)
  | obj (id : Nat)
deriving DecidableEq

/-- Modelled from the spec: IValue.is_none distinguishes the none variant
from every payload-bearing variant. -/
def IValue.is_none : IValue → Bool
  | .none => true
  | _ => false

/-- Modelled from the spec: the debug type name used in conversion error
messages (IValue.type_string in the C++ code). -/
def IValue.type_string : IValue → String
  | .none => "None"
  | .bool _ => "Bool"
  | .int _ => "Int"
  | .flt => "Float"
  | .str _ => "String"
  | .obj _ => "Object"

/-- A requested static C++ target type of a typed extraction, one tag per
convertible category (the C++ side writes typeid of T). -/
inductive CTy where
  | cbool
  | cint
  | cflt
  | cstr
  | cobj
deriving DecidableEq

/-- The display name of a requested target type, standing for the C++
typeid name in error messages. -/
def CTy.name : CTy → String
  | .cbool => "bool"
  | .cint => "int64"
  | .cflt => "double"
  | .cstr => "string"
  | .cobj => "object"

/-- Modelled from the spec: the fallible typed conversion
IValue.try_convert_to of the external Value type.  Conversion succeeds
exactly when the dynamic tag matches the requested category, returning the
payload unchanged. -/
def tryConvertTo : IValue → CTy → Option IValue
  | .bool b, .cbool => some (.bool b)
  | .int n, .cint => some (.int n)
  | .flt, .cflt => some .flt
  | .str s, .cstr => some (.str s)
  | .obj i, .cobj => some (.obj i)
  | _, _ => Option.none

/-- Every distinct throw site of library.h, one constructor per conceptual
error kind of the spec, carrying the exact message string the C++ code
builds at that site. -/
inductive Err where
  | indexError (msg : String)
  | conversionError (msg : String)
  | arityError (msg : String)
  | voidResultError (msg : String)
  | unboundCallable (msg : String)
  | notFound (msg : String)
  | methodNotFound (msg : String)
  | noMatchingOverload (msg : String)
  | operatorNotImplemented (msg : String)
  | callFailed (msg : String)
  | execFailed (msg : String)
  | userError (msg : String)
deriving DecidableEq

/-- The message carried by an error: what the C++ side observes through
e.what() when it catches the exception. -/
def Err.msg : Err → String
  | .indexError m => m
  | .conversionError m => m
  | .arityError m => m
  | .voidResultError m => m
  | .unboundCallable m => m
  | .notFound m => m
  | .methodNotFound m => m
  | .noMatchingOverload m => m
  | .operatorNotImplemented m => m
  | .callFailed m => m
  | .execFailed m => m
  | .userError m => m

/-- torch::FunctionArgs: an ordered, type-erased sequence of IValues. -/
structure FunctionArgs where
  args : List IValue
deriving DecidableEq

/-- FunctionArgs.size. -/
def FunctionArgs.size (fa : FunctionArgs) : Nat := fa.args.length

/-- FunctionArgs.get generalised over the conversion operation of the
external Value collaborator: checks the index bound first (throwing the
out_of_range message), then attempts the fallible conversion of the stored
IValue to the requested target type, throwing the conversion message on
failure.  The C++ body of FunctionArgs.get is this function applied to
tryConvertTo. -/
def FunctionArgs.getC (conv : IValue → CTy → Option IValue) (fa : FunctionArgs)
    (t : CTy) (i : Nat) : Except Err IValue :=
  if h : i < fa.args.length then
    match conv (fa.args.get ⟨i, h⟩) t with
    | some v => .ok v
    | Option.none =>
        .error (.conversionError ("Cannot convert argument " ++ toString i ++
          " from " ++ (fa.args.get ⟨i, h⟩).type_string ++ " to " ++ t.name))
  else
    .error (.indexError ("Argument index out of range"))

/-- FunctionArgs.get of library.h, with the concrete conversion. -/
def FunctionArgs.get (fa : FunctionArgs) (t : CTy) (i : Nat) : Except Err IValue :=
  fa.getC tryConvertTo t i

/-- FunctionArgs.get_value: bounds-checked raw access, same out_of_range
message as get, no conversion. -/
def FunctionArgs.get_value (fa : FunctionArgs) (i : Nat) : Except Err IValue :=
  if h : i < fa.args.length then .ok (fa.args.get ⟨i, h⟩)
  else .error (.indexError ("Argument index out of range"))

/-- The C++ subscript operator of FunctionArgs returns args_[index] with no
bounds check (std::vector subscript): an out-of-range access is undefined
behaviour and raises no error of any kind.  It is embedded as the partial
lookup into the stored sequence, where Option.none marks the undefined
out-of-range case. -/
def FunctionArgs.opIndex (fa : FunctionArgs) (i : Nat) : Option IValue :=
  fa.args.get? i

/-- Helper of to_tuple: convert the requested types positionally starting at
index i, propagating the first failure (C++ to_tuple_impl expanding get over
the index sequence). -/
def toTupleGo (conv : IValue → CTy → Option IValue) (fa : FunctionArgs) :
    List CTy → Nat → Except Err (List IValue)
  | [], _ => .ok []
  | t :: ts, i =>
    match fa.getC conv t i with
    | .error e => .error e
    | .ok v =>
      match toTupleGo conv fa ts (i + 1) with
      | .error e => .error e
      | .ok vs => .ok (v :: vs)

/-- FunctionArgs.to_tuple generalised over the conversion operation: the
arity check against the requested type list comes first with the exact
C++ message, then each position is converted in order. -/
def FunctionArgs.toTupleC (conv : IValue → CTy → Option IValue)
    (fa : FunctionArgs) (tys : List CTy) : Except Err (List IValue) :=
  if tys.length ≠ fa.args.length then
    .error (.arityError ("Argument count mismatch: expected " ++
      toString tys.length ++ ", got " ++ toString fa.args.length))
  else toTupleGo conv fa tys 0

/-- FunctionArgs.to_tuple of library.h, with the concrete conversion. -/
def FunctionArgs.to_tuple (fa : FunctionArgs) (tys : List CTy) :
    Except Err (List IValue) :=
  fa.toTupleC tryConvertTo tys

/-- torch::FunctionResult: wraps one IValue, the default constructor storing
the none IValue. -/
structure FunctionResult where
  value : IValue
deriving DecidableEq

/-- FunctionResult.has_value is the negation of is_none on the stored
value. -/
def FunctionResult.has_value (r : FunctionResult) : Bool :=
  !r.value.is_none

/-- FunctionResult.void_result: the canonical empty result (default
constructed, storing the none IValue). -/
def FunctionResult.void_result : FunctionResult := ⟨.none⟩

/-- FunctionResult.get: the is_none check comes first with the void-result
message, then the fallible conversion with the conversion message. -/
def FunctionResult.get (r : FunctionResult) (t : CTy) : Except Err IValue :=
  if r.value.is_none then
    .error (.voidResultError ("No return value (void function)"))
  else
    match tryConvertTo r.value t with
    | some v => .ok v
    | Option.none =>
        .error (.conversionError ("Cannot convert result from " ++
          r.value.type_string ++ " to " ++ t.name))

/-- torch::CppFunction: an optional boxed closure from FunctionArgs to
FunctionResult.  The default constructor leaves it unbound (func_ null in
the C++ code); calling an unbound one throws the initialisation message. -/
structure CppFunction where
  func : Option (FunctionArgs → Except Err FunctionResult)

/-- CppFunction built from an IValue-returning callable that is not a
member-function pointer (the lambda path of overload resolution): the
wrapper boxes a successful IValue into a FunctionResult and rethrows any
failure with the lambda-execution prefix. -/
def CppFunction.fromLambda (f : FunctionArgs → Except Err IValue) : CppFunction :=
  ⟨some (fun args =>
    match f args with
    | .ok v => .ok ⟨v⟩
    | .error e => .error (.callFailed ("Lambda execution failed: " ++ e.msg)))⟩

/-- CppFunction.call_with_args: throws if the closure was never bound,
otherwise invokes it. -/
def CppFunction.call_with_args (c : CppFunction) (args : FunctionArgs) :
    Except Err FunctionResult :=
  match c.func with
  | Option.none => .error (.unboundCallable ("CppFunction is not initialized"))
  | some f => f args

/-- Lookup in an association list standing for an unordered_map find. -/
def mapFind {κ α : Type} [DecidableEq κ] (k : κ) : List (κ × α) → Option α
  | [] => Option.none
  | (k1, v) :: rest => if k1 = k then some v else mapFind k rest

/-- Overwrite-or-insert in an association list standing for an
unordered_map subscript assignment. -/
def mapInsert {κ α : Type} [DecidableEq κ] (k : κ) (v : α) :
    List (κ × α) → List (κ × α)
  | [] => [(k, v)]
  | (k1, v1) :: rest =>
    if k1 = k then (k, v) :: rest else (k1, v1) :: mapInsert k v rest

/-- torch::ClassRegistration: namespace, class name, derived qualified name,
the ordered constructor list and the two name-keyed method maps. -/
structure ClassRegistration where
  namespace_name : String
  class_name : String
  qualified_name : String
  constructors : List CppFunction
  methods : List (String × CppFunction)
  static_methods : List (String × CppFunction)

/-- torch::ClassRegistry: the map from qualified class name to its
registration. -/
structure ClassRegistry where
  classes : List (String × ClassRegistration)

/-- ClassRegistry.register_class: assigns a freshly constructed
ClassRegistration (empty constructors and method maps) to the qualified
name, replacing any registration already stored there. -/
def ClassRegistry.register_class (reg : ClassRegistry)
    (namespace_name class_name : String) : ClassRegistry :=
  ⟨mapInsert (namespace_name ++ "::" ++ class_name)
    ⟨namespace_name, class_name, namespace_name ++ "::" ++ class_name,
      [], [], []⟩ reg.classes⟩

/-- ClassRegistry.register_constructor: throws if the class is unknown,
otherwise appends the adapter to the ordered constructor list. -/
def ClassRegistry.register_constructor (reg : ClassRegistry)
    (qualified_name : String) (f : CppFunction) : Except Err ClassRegistry :=
  match mapFind qualified_name reg.classes with
  | Option.none =>
      .error (.notFound ("Class " ++ qualified_name ++ " not found"))
  | some cr =>
      .ok ⟨mapInsert qualified_name
        ⟨cr.namespace_name, cr.class_name, cr.qualified_name,
          cr.constructors ++ [f], cr.methods, cr.static_methods⟩ reg.classes⟩

/-- ClassRegistry.register_method: throws if the class is unknown, otherwise
inserts or overwrites the instance method by name. -/
def ClassRegistry.register_method (reg : ClassRegistry)
    (qualified_name method_name : String) (f : CppFunction) :
    Except Err ClassRegistry :=
  match mapFind qualified_name reg.classes with
  | Option.none =>
      .error (.notFound ("Class " ++ qualified_name ++ " not found"))
  | some cr =>
      .ok ⟨mapInsert qualified_name
        ⟨cr.namespace_name, cr.class_name, cr.qualified_name,
          cr.constructors, mapInsert method_name f cr.methods,
          cr.static_methods⟩ reg.classes⟩

/-- ClassRegistry.register_static_method: throws if the class is unknown,
otherwise inserts or overwrites the static method by name. -/
def ClassRegistry.register_static_method (reg : ClassRegistry)
    (qualified_name method_name : String) (f : CppFunction) :
    Except Err ClassRegistry :=
  match mapFind qualified_name reg.classes with
  | Option.none =>
      .error (.notFound ("Class " ++ qualified_name ++ " not found"))
  | some cr =>
      .ok ⟨mapInsert qualified_name
        ⟨cr.namespace_name, cr.class_name, cr.qualified_name,
          cr.constructors, cr.methods,
          mapInsert method_name f cr.static_methods⟩ reg.classes⟩

/-- The constructor trial loop of call_constructor_with_args: each candidate
is tried in order inside a catch-all, the first successful call is returned,
and exhaustion is reported as Option.none. -/
def tryConstructors : List CppFunction → FunctionArgs → Option FunctionResult
  | [], _ => Option.none
  | c :: rest, args =>
    match c.call_with_args args with
    | .ok r => some r
    | .error _ => tryConstructors rest args

/-- ClassRegistry.call_constructor_with_args: class lookup, the
empty-constructor-list check, then the trial loop, with the three exact C++
messages. -/
def ClassRegistry.call_constructor_with_args (reg : ClassRegistry)
    (qualified_name : String) (args : FunctionArgs) :
    Except Err FunctionResult :=
  match mapFind qualified_name reg.classes with
  | Option.none =>
      .error (.notFound ("Class " ++ qualified_name ++ " not found!"))
  | some cr =>
    if cr.constructors.isEmpty then
      .error (.notFound ("No constructor registered for " ++ qualified_name))
    else
      match tryConstructors cr.constructors args with
      | some r => .ok r
      | Option.none =>
          .error (.noMatchingOverload
            ("No suitable constructor found for " ++ qualified_name))

/-- ClassRegistry.call_method_with_args (explicit-receiver overload): class
lookup, method lookup, then the call; the catch block rethrows the failure
unchanged. -/
def ClassRegistry.call_method_with_args (reg : ClassRegistry)
    (qualified_name method_name : String) (args : FunctionArgs) :
    Except Err FunctionResult :=
  match mapFind qualified_name reg.classes with
  | Option.none =>
      .error (.notFound ("Class " ++ qualified_name ++ " not found!"))
  | some cr =>
    match mapFind method_name cr.methods with
    | Option.none =>
        .error (.methodNotFound ("Method " ++ method_name ++ " not found in " ++
          qualified_name ++ "!"))
    | some f => f.call_with_args args

/-- ClassRegistry.call_static_method_with_args: class lookup, static method
lookup, then the call; the catch block rethrows the failure unchanged. -/
def ClassRegistry.call_static_method_with_args (reg : ClassRegistry)
    (qualified_name method_name : String) (args : FunctionArgs) :
    Except Err FunctionResult :=
  match mapFind qualified_name reg.classes with
  | Option.none =>
      .error (.notFound ("Class " ++ qualified_name ++ " not found!"))
  | some cr =>
    match mapFind method_name cr.static_methods with
    | Option.none =>
        .error (.methodNotFound ("Static method " ++ method_name ++
          " not found in " ++ qualified_name ++ "!"))
    | some f => f.call_with_args args

/-- The callable argument of the instance-method declaration on the class
builder, after the compile-time member-function-pointer test of the C++
template: either a member function pointer (carrying the composed invoker
that the builder wraps) or any other callable, for which the C++ branch body
is empty. -/
inductive MethodCallable where
  | memberFn (f : FunctionArgs → Except Err IValue)
  | generic

/-- The adapter body built for a member function pointer by the instance
method branch of the class builder: requires a receiver as first argument,
extracts it as an object handle, then invokes the member function on the
full argument list. -/
def methodFuncBody (f : FunctionArgs → Except Err IValue)
    (args : FunctionArgs) : Except Err IValue :=
  if args.size < 1 then
    .error (.arityError
      ("Instance method requires at least 1 argument (this pointer)"))
  else
    match args.get .cobj 0 with
    | .error e => .error e
    | .ok _ => f args

/-- The instance-method declaration of the class builder: for a member
function pointer it registers the wrapped adapter under the method name
(which throws if the class is unknown); for every other callable the branch
body registers nothing, reports nothing, and the builder returns normally. -/
def classDefMethod (reg : ClassRegistry) (qualified_name method_name : String) :
    MethodCallable → Except Err ClassRegistry
  | .memberFn f =>
      reg.register_method qualified_name method_name
        (CppFunction.fromLambda (methodFuncBody f))
  | .generic => .ok reg

/-- torch::DispatchKey. -/
inductive DispatchKey where
  | Undefined
  | CPU
  | CUDA
deriving DecidableEq

/-- torch::dispatch_key_to_string. -/
def dispatch_key_to_string : DispatchKey → String
  | .CPU => "CPU"
  | .CUDA => "CUDA"
  | .Undefined => "Undefined"

/-- torch::OperatorRegistration: qualified name, schema string and the
dispatch-key-keyed implementation map. -/
structure OperatorRegistration where
  qualified_name : String
  schema : String
  implementations : List (DispatchKey × CppFunction)

/-- torch::OperatorRegistry: the map from qualified operator name to its
registration. -/
structure OperatorRegistry where
  operators : List (String × OperatorRegistration)

/-- OperatorRegistry.find_operator. -/
def OperatorRegistry.find_operator (reg : OperatorRegistry)
    (qualified_name : String) : Option OperatorRegistration :=
  mapFind qualified_name reg.operators

/-- get_or_create_operator followed by the schema assignment of
register_schema. -/
def OperatorRegistry.register_schema (reg : OperatorRegistry)
    (qualified_name schema : String) : OperatorRegistry :=
  match mapFind qualified_name reg.operators with
  | Option.none =>
      ⟨mapInsert qualified_name ⟨qualified_name, schema, []⟩ reg.operators⟩
  | some op =>
      ⟨mapInsert qualified_name
        ⟨op.qualified_name, schema, op.implementations⟩ reg.operators⟩

/-- get_or_create_operator followed by the implementation-map assignment of
register_implementation: inserts or overwrites the implementation stored
under the dispatch key. -/
def OperatorRegistry.register_implementation (reg : OperatorRegistry)
    (qualified_name : String) (key : DispatchKey) (f : CppFunction) :
    OperatorRegistry :=
  match mapFind qualified_name reg.operators with
  | Option.none =>
      ⟨mapInsert qualified_name
        ⟨qualified_name, "", [(key, f)]⟩ reg.operators⟩
  | some op =>
      ⟨mapInsert qualified_name
        ⟨op.qualified_name, op.schema, mapInsert key f op.implementations⟩
        reg.operators⟩

/-- Success test of a call, standing for the try block of the boolean probe
path collapsing any caught failure to false. -/
def okBool : Except Err FunctionResult → Bool
  | .ok _ => true
  | .error _ => false

/-- OperatorRegistry.execute_operator: the no-argument boolean probe.  Not
found and no implementation collapse to false; an implementation found under
the requested key is invoked with an empty argument list inside a catch-all
that collapses failure to false, and only when the requested key has no
entry at all and is not CPU is the CPU entry tried under the same
contract. -/
def OperatorRegistry.execute_operator (reg : OperatorRegistry)
    (qualified_name : String) (key : DispatchKey) : Bool :=
  match reg.find_operator qualified_name with
  | Option.none => false
  | some op =>
    match mapFind key op.implementations with
    | some impl => okBool (impl.call_with_args ⟨[]⟩)
    | Option.none =>
      if key ≠ DispatchKey.CPU then
        match mapFind DispatchKey.CPU op.implementations with
        | some impl => okBool (impl.call_with_args ⟨[]⟩)
        | Option.none => false
      else false

/-- The rethrow of the typed-argument path when the implementation found
under the requested key fails: a new error with the fixed prefix and the
caught message. -/
def execWrap : Except Err FunctionResult → Except Err FunctionResult
  | .ok r => .ok r
  | .error e => .error (.execFailed ("Error executing operator: " ++ e.msg))

/-- The rethrow of the typed-argument path when the CPU fallback
implementation fails: a new error with the fallback prefix and the caught
message. -/
def fallbackWrap : Except Err FunctionResult → Except Err FunctionResult
  | .ok r => .ok r
  | .error e =>
      .error (.execFailed ("Error executing operator (CPU fallback): " ++ e.msg))

/-- OperatorRegistry.execute_operator_with_args: operator lookup throwing
the not-found message; exact key match invoked with the given arguments and
rethrown through execWrap on failure; when the requested key has no entry
and is not CPU, the CPU entry is invoked with the same arguments and
rethrown through fallbackWrap; otherwise the no-implementation message is
thrown naming the qualified name and the requested key. -/
def OperatorRegistry.execute_operator_with_args (reg : OperatorRegistry)
    (qualified_name : String) (key : DispatchKey) (args : FunctionArgs) :
    Except Err FunctionResult :=
  match reg.find_operator qualified_name with
  | Option.none =>
      .error (.notFound ("Operator " ++ qualified_name ++ " not found!"))
  | some op =>
    match mapFind key op.implementations with
    | some impl => execWrap (impl.call_with_args args)
    | Option.none =>
      if key ≠ DispatchKey.CPU then
        match mapFind DispatchKey.CPU op.implementations with
        | some impl => fallbackWrap (impl.call_with_args args)
        | Option.none =>
            .error (.operatorNotImplemented
              ("No implementation found for " ++ qualified_name ++ " with " ++
                dispatch_key_to_string key))
      else
        .error (.operatorNotImplemented
          ("No implementation found for " ++ qualified_name ++ " with " ++
            dispatch_key_to_string key))

/-- Tests whether an error is a conversion failure, the kind thrown by the
typed conversion paths. -/
def Err.isConversionFailure : Err → Bool
  | .conversionError _ => true
  | _ => false

/-- Tests whether a character list starts with the given character list. -/
def leadsList : List Char → List Char → Bool
  | [], _ => true
  | _ :: _, [] => false
  | a :: as, b :: bs => a == b && leadsList as bs

/-- Tests whether a character list occurs contiguously inside another: used
to check which identifiers an error message does or does not mention. -/
def occursIn (needle : List Char) : List Char → Bool
  | [] => needle.isEmpty
  | b :: bs => leadsList needle (b :: bs) || occursIn needle bs

/-- Inserting under a key and then looking that key up yields the inserted
value. -/
theorem mapFind_mapInsert_self {κ α : Type} [DecidableEq κ] (k : κ) (v : α)
    (l : List (κ × α)) : mapFind k (mapInsert k v l) = some v := by
  induction l with
  | nil => simp [mapInsert, mapFind]
  | cons p rest ih =>
    obtain ⟨k1, v1⟩ := p
    by_cases h : k1 = k
    · simp [mapInsert, h, mapFind]
    · simp [mapInsert, h, mapFind, ih]

/-- C6: a FunctionResult has has_value false exactly when the stored Value
is the none Value, which is what both the empty construction (void_result,
the default constructor) and construction from a none Value store; a typed
get on such an empty result fails with the VoidResultError kind, which is
not a conversion failure. -/
theorem C6_result_emptiness (v : IValue) (t : CTy) :
  ((FunctionResult.mk v).has_value = false ↔ v.is_none = true)
  ∧ FunctionResult.void_result.has_value = false
  ∧ FunctionResult.void_result.get t
      = .error (.voidResultError ("No return value (void function)"))
  ∧ (FunctionResult.mk IValue.none).get t
      = .error (.voidResultError ("No return value (void function)"))
  ∧ Err.isConversionFailure
      (.voidResultError ("No return value (void function)")) = false := by
  refine ⟨?_, rfl, rfl, rfl, rfl⟩
  cases v <;> simp [FunctionResult.has_value, IValue.is_none]

/-- C7 counterexample: an out-of-range raw subscript access on an empty
argument list raises no IndexError; the C++ subscript operator returns
args_[index] without any bounds check, so the access is undefined behaviour
(embedded as Option.none), while the bounds-checked get_value on the same
input does fail with the IndexError kind. -/
theorem C7_counterexample :
  FunctionArgs.opIndex ⟨[]⟩ 0 = Option.none
  ∧ FunctionArgs.get_value ⟨[]⟩ 0
      = .error (.indexError ("Argument index out of range")) :=
  ⟨rfl, rfl⟩

/-- C7 amended: typed extraction (get, under any conversion) and get_value
fail with the IndexError kind on every index outside the argument range,
but the raw subscript operator performs no bounds check: in range it reads
the stored Value, out of range it raises nothing (undefined behaviour). -/
theorem C7_checked_access (conv : IValue → CTy → Option IValue)
    (fa : FunctionArgs) (t : CTy) (i : Nat) :
  (fa.size ≤ i →
    fa.getC conv t i = .error (.indexError ("Argument index out of range"))
    ∧ fa.get t i = .error (.indexError ("Argument index out of range"))
    ∧ fa.get_value i = .error (.indexError ("Argument index out of range"))
    ∧ fa.opIndex i = Option.none)
  ∧ (i < fa.size →
    ∃ v, fa.opIndex i = some v ∧ fa.get_value i = .ok v) := by
  constructor
  · intro hle
    have hnot : ¬ i < fa.args.length := by
      simp only [FunctionArgs.size] at hle
      omega
    refine ⟨?_, ?_, ?_, ?_⟩
    · simp [FunctionArgs.getC, hnot]
    · simp [FunctionArgs.get, FunctionArgs.getC, hnot]
    · simp [FunctionArgs.get_value, hnot]
    · simp [FunctionArgs.opIndex, List.get?_eq_none]
      simpa [FunctionArgs.size] using hle
  · intro hlt
    have h : i < fa.args.length := hlt
    refine ⟨fa.args.get ⟨i, h⟩, ?_, ?_⟩
    · simp [FunctionArgs.opIndex, List.get?_eq_get h]
    · simp [FunctionArgs.get_value, h]

/-- C7 witness: a concrete out-of-range access on a one-element argument
list, and a concrete in-range raw access. -/
theorem C7_witness :
  FunctionArgs.get ⟨[IValue.int 3]⟩ CTy.cint 5
      = .error (.indexError ("Argument index out of range"))
  ∧ FunctionArgs.opIndex ⟨[IValue.int 3]⟩ 5 = Option.none
  ∧ ∃ v, FunctionArgs.opIndex ⟨[IValue.int 3]⟩ 0 = some v
      ∧ FunctionArgs.get_value ⟨[IValue.int 3]⟩ 0 = .ok v :=
  ⟨(((C7_checked_access tryConvertTo ⟨[IValue.int 3]⟩ CTy.cint 5).1
      (by decide)).2).1,
   (((C7_checked_access tryConvertTo ⟨[IValue.int 3]⟩ CTy.cint 5).1
      (by decide)).2).2.2,
   (C7_checked_access tryConvertTo ⟨[IValue.int 3]⟩ CTy.cint 0).2 (by decide)⟩

/-- C8: register_class assigns a freshly constructed registration to the
qualified name, so re-registering a name whose registration had accumulated
constructors and methods (any prior registry state) leaves the name
registered with empty constructor list and empty method maps. -/
theorem C8_register_class_replaces (reg : ClassRegistry) (ns cname : String) :
  mapFind (ns ++ "::" ++ cname) (reg.register_class ns cname).classes
    = some ⟨ns, cname, ns ++ "::" ++ cname, [], [], []⟩ := by
  unfold ClassRegistry.register_class
  exact mapFind_mapInsert_self _ _ _

/-- The positional conversion loop propagates the first failing position:
if every earlier requested position converts and position i fails with e,
the loop result is the error e. -/
theorem toTupleGo_eq_error (conv : IValue → CTy → Option IValue)
    (fa : FunctionArgs) :
    ∀ (ts : List CTy) (base i : Nat) (t : CTy) (e : Err),
      ts.get? i = some t →
      (∀ j t2, j < i → ts.get? j = some t2 →
        ∃ v, fa.getC conv t2 (base + j) = .ok v) →
      fa.getC conv t (base + i) = .error e →
      toTupleGo conv fa ts base = .error e := by
  intro ts
  induction ts with
  | nil => intro base i t e h; simp at h
  | cons t0 ts1 ih =>
    intro base i t e hget hprev herr
    cases i with
    | zero =>
      simp at hget
      subst hget
      rw [Nat.add_zero] at herr
      simp only [toTupleGo]
      rw [herr]
    | succ i1 =>
      obtain ⟨v0, hv0⟩ : ∃ v, fa.getC conv t0 base = .ok v := by
        have h0 := hprev 0 t0 (Nat.succ_pos i1) rfl
        rwa [Nat.add_zero] at h0
      simp only [toTupleGo]
      rw [hv0]
      have hrec := ih (base + 1) i1 t e (by simpa using hget)
        (fun j t2 hj hjt => by
          have hp := hprev (j + 1) t2 (Nat.succ_lt_succ hj) (by simpa using hjt)
          rwa [show base + (j + 1) = base + 1 + j by omega] at hp)
        (by rwa [show base + (i1 + 1) = base + 1 + i1 by omega] at herr)
      rw [hrec]

/-- When the positional conversion loop succeeds, every requested position
converted successfully and the produced list pairs up with the requests
position by position. -/
theorem toTupleGo_eq_ok (conv : IValue → CTy → Option IValue)
    (fa : FunctionArgs) :
    ∀ (ts : List CTy) (base : Nat) (vs : List IValue),
      toTupleGo conv fa ts base = .ok vs →
      vs.length = ts.length ∧
        ∀ i t, ts.get? i = some t →
          ∃ v, fa.getC conv t (base + i) = .ok v ∧ vs.get? i = some v := by
  intro ts
  induction ts with
  | nil =>
    intro base vs h
    simp only [toTupleGo] at h
    cases h
    exact ⟨rfl, by intro i t ht; simp at ht⟩
  | cons t0 ts1 ih =>
    intro base vs h
    simp only [toTupleGo] at h
    cases hg : fa.getC conv t0 base with
    | error e => rw [hg] at h; cases h
    | ok v0 =>
      rw [hg] at h
      cases hr : toTupleGo conv fa ts1 (base + 1) with
      | error e => rw [hr] at h; cases h
      | ok vs1 =>
        rw [hr] at h
        cases h
        obtain ⟨hlen, hall⟩ := ih (base + 1) vs1 hr
        constructor
        · simp [hlen]
        · intro i t ht
          cases i with
          | zero =>
            simp at ht
            subst ht
            exact ⟨v0, by rwa [Nat.add_zero], rfl⟩
          | succ i1 =>
            rw [List.get?_cons_succ] at ht
            obtain ⟨v, hv, hvs⟩ := hall i1 t ht
            refine ⟨v, ?_, by rw [List.get?_cons_succ]; exact hvs⟩
            rwa [show base + (i1 + 1) = base + 1 + i1 by omega]

/-- C5: to_tuple over a list of requested types checks the arity first and
fails with the ArityError kind and the exact mismatch message whenever the
argument count differs, with a result that is independent of the conversion
operation (no conversion is attempted); when the counts agree it converts
position by position, propagating the error of the first failing position,
and a successful result pairs every position with its converted value (the
Except shape itself excludes any partial tuple). -/
theorem C5_to_tuple_arity_and_order (conv : IValue → CTy → Option IValue)
    (tys : List CTy) (fa : FunctionArgs) :
  (tys.length ≠ fa.args.length →
    fa.to_tuple tys = .error (.arityError ("Argument count mismatch: expected "
      ++ toString tys.length ++ ", got " ++ toString fa.args.length))
    ∧ FunctionArgs.toTupleC conv fa tys = fa.to_tuple tys)
  ∧ (tys.length = fa.args.length →
    (∀ i t e, tys.get? i = some t →
      (∀ j t2, j < i → tys.get? j = some t2 → ∃ v, fa.get t2 j = .ok v) →
      fa.get t i = .error e →
      fa.to_tuple tys = .error e)
    ∧ (∀ vs, fa.to_tuple tys = .ok vs →
      vs.length = tys.length ∧
        ∀ i t, tys.get? i = some t →
          ∃ v, fa.get t i = .ok v ∧ vs.get? i = some v)) := by
  constructor
  · intro hne
    constructor
    · simp [FunctionArgs.to_tuple, FunctionArgs.toTupleC, hne]
    · simp [FunctionArgs.to_tuple, FunctionArgs.toTupleC, hne]
  · intro heq
    have hok : fa.to_tuple tys = toTupleGo tryConvertTo fa tys 0 := by
      simp [FunctionArgs.to_tuple, FunctionArgs.toTupleC, heq]
    constructor
    · intro i t e hget hprev herr
      rw [hok]
      exact toTupleGo_eq_error tryConvertTo fa tys 0 i t e hget
        (fun j t2 hj hjt => by
          simpa [Nat.zero_add, FunctionArgs.get] using hprev j t2 hj hjt)
        (by simpa [Nat.zero_add, FunctionArgs.get] using herr)
    · intro vs hvs
      rw [hok] at hvs
      obtain ⟨hlen, hall⟩ := toTupleGo_eq_ok tryConvertTo fa tys 0 vs hvs
      refine ⟨hlen, fun i t ht => ?_⟩
      obtain ⟨v, hv, hvi⟩ := hall i t ht
      exact ⟨v, by simpa [Nat.zero_add, FunctionArgs.get] using hv, hvi⟩

/-- C5 witness: a one-argument list against two requested types fails with
the concrete arity message under two different conversion operations, and a
matching-arity list whose second position cannot convert fails with the
conversion error of that position. -/
theorem C5_witness :
  FunctionArgs.to_tuple ⟨[IValue.int 1]⟩ [CTy.cint, CTy.cint]
      = .error (.arityError ("Argument count mismatch: expected 2, got 1"))
  ∧ FunctionArgs.toTupleC (fun _ _ => Option.none) ⟨[IValue.int 1]⟩
      [CTy.cint, CTy.cint]
      = FunctionArgs.to_tuple ⟨[IValue.int 1]⟩ [CTy.cint, CTy.cint]
  ∧ FunctionArgs.to_tuple ⟨[IValue.int 1, IValue.str ("x")]⟩ [CTy.cint, CTy.cint]
      = .error (.conversionError
          ("Cannot convert argument 1 from String to int64")) :=
  ⟨((C5_to_tuple_arity_and_order tryConvertTo [CTy.cint, CTy.cint]
      ⟨[IValue.int 1]⟩).1 (by decide)).1,
   ((C5_to_tuple_arity_and_order (fun _ _ => Option.none) [CTy.cint, CTy.cint]
      ⟨[IValue.int 1]⟩).1 (by decide)).2,
   ((C5_to_tuple_arity_and_order tryConvertTo [CTy.cint, CTy.cint]
      ⟨[IValue.int 1, IValue.str ("x")]⟩).2 (by decide)).1 1 CTy.cint
      (.conversionError ("Cannot convert argument 1 from String to int64"))
      rfl
      (by
        intro j t2 hj hjt
        have hj0 : j = 0 := by omega
        subst hj0
        cases hjt
        exact ⟨IValue.int 1, rfl⟩)
      rfl⟩

/-- The constructor trial loop returns a result exactly when the candidate
list splits into a failing front segment, a first succeeding candidate
producing that result, and a remainder that is never consulted. -/
theorem tryConstructors_eq_some_iff (args : FunctionArgs) (r : FunctionResult) :
    ∀ (cs : List CppFunction),
      tryConstructors cs args = some r ↔
        ∃ pre c suf, cs = pre ++ c :: suf ∧
          (∀ c2 ∈ pre, ∃ e, c2.call_with_args args = .error e) ∧
          c.call_with_args args = .ok r := by
  intro cs
  induction cs with
  | nil =>
    constructor
    · intro h; simp [tryConstructors] at h
    · rintro ⟨pre, c, suf, h, -, -⟩
      exact absurd h.symm (by simp)
  | cons c0 rest ih =>
    cases hc : CppFunction.call_with_args c0 args with
    | ok r0 =>
      constructor
      · intro h
        simp only [tryConstructors] at h
        rw [hc] at h
        cases h
        exact ⟨[], c0, rest, rfl, by simp, hc⟩
      · rintro ⟨pre, c, suf, hsplit, hfail, hok⟩
        cases pre with
        | nil =>
          simp only [List.nil_append] at hsplit
          cases hsplit
          simp only [tryConstructors]
          rw [hc]
          rw [hc] at hok
          cases hok
          rfl
        | cons p pre1 =>
          simp only [List.cons_append, List.cons.injEq] at hsplit
          obtain ⟨hp, -⟩ := hsplit
          obtain ⟨e, he⟩ := hfail p (List.mem_cons_self p pre1)
          rw [hp] at hc
          rw [hc] at he
          cases he
    | error e0 =>
      constructor
      · intro h
        simp only [tryConstructors] at h
        rw [hc] at h
        obtain ⟨pre, c, suf, hsplit, hfail, hok⟩ := ih.mp h
        refine ⟨c0 :: pre, c, suf, by rw [hsplit, List.cons_append], ?_, hok⟩
        intro c2 hc2
        rcases List.mem_cons.mp hc2 with h2 | h2
        · exact ⟨e0, by rw [h2]; exact hc⟩
        · exact hfail c2 h2
      · rintro ⟨pre, c, suf, hsplit, hfail, hok⟩
        cases pre with
        | nil =>
          simp only [List.nil_append] at hsplit
          cases hsplit
          rw [hc] at hok
          cases hok
        | cons p pre1 =>
          simp only [List.cons_append, List.cons.injEq] at hsplit
          obtain ⟨hp, hrest⟩ := hsplit
          simp only [tryConstructors]
          rw [hc]
          exact ih.mpr ⟨pre1, c, suf, hrest,
            fun c2 h2 => hfail c2 (List.mem_cons_of_mem p h2), hok⟩

/-- The constructor trial loop is exhausted exactly when every candidate
fails on the given arguments. -/
theorem tryConstructors_eq_none_iff (args : FunctionArgs) :
    ∀ (cs : List CppFunction),
      tryConstructors cs args = Option.none ↔
        ∀ c ∈ cs, ∃ e, c.call_with_args args = .error e := by
  intro cs
  induction cs with
  | nil => simp [tryConstructors]
  | cons c0 rest ih =>
    cases hc : CppFunction.call_with_args c0 args with
    | ok r0 =>
      constructor
      · intro h
        simp only [tryConstructors] at h
        rw [hc] at h
        cases h
      · intro hall
        obtain ⟨e, he⟩ := hall c0 (List.mem_cons_self c0 rest)
        rw [hc] at he
        cases he
    | error e0 =>
      constructor
      · intro h
        simp only [tryConstructors] at h
        rw [hc] at h
        intro c h2
        rcases List.mem_cons.mp h2 with h3 | h3
        · exact ⟨e0, by rw [h3]; exact hc⟩
        · exact ih.mp h c h3
      · intro hall
        simp only [tryConstructors]
        rw [hc]
        exact ih.mpr (fun c h2 => hall c (List.mem_cons_of_mem c0 h2))

/-- C2: constructor invocation on a qualified name fails with the NotFound
kind (the class-not-found message, or the no-constructor message) when the
name is unregistered or its constructor list is empty; otherwise it returns
the result of the first registered constructor, in registration order, whose
call succeeds, and it fails with the NoMatchingOverload kind exactly when
every registered constructor fails on the given arguments. -/
theorem C2_constructor_overload_resolution (reg : ClassRegistry) (q : String)
    (args : FunctionArgs) :
  (mapFind q reg.classes = Option.none →
    reg.call_constructor_with_args q args
      = .error (.notFound ("Class " ++ q ++ " not found!")))
  ∧ (∀ cr, mapFind q reg.classes = some cr → cr.constructors = [] →
    reg.call_constructor_with_args q args
      = .error (.notFound ("No constructor registered for " ++ q)))
  ∧ (∀ cr, mapFind q reg.classes = some cr →
    (∀ r, reg.call_constructor_with_args q args = .ok r ↔
      ∃ pre c suf, cr.constructors = pre ++ c :: suf ∧
        (∀ c2 ∈ pre, ∃ e, c2.call_with_args args = .error e) ∧
        c.call_with_args args = .ok r)
    ∧ (cr.constructors ≠ [] →
      (reg.call_constructor_with_args q args
        = .error (.noMatchingOverload ("No suitable constructor found for " ++ q))
       ↔ ∀ c ∈ cr.constructors, ∃ e, c.call_with_args args = .error e))) := by
  refine ⟨?_, ?_, ?_⟩
  · intro h
    simp [ClassRegistry.call_constructor_with_args, h]
  · intro cr hfind hempty
    simp [ClassRegistry.call_constructor_with_args, hfind, hempty]
  · intro cr hfind
    constructor
    · intro r
      by_cases hempty : cr.constructors = []
      · constructor
        · intro h
          simp [ClassRegistry.call_constructor_with_args, hfind, hempty] at h
        · rintro ⟨pre, c, suf, hsplit, -, -⟩
          rw [hempty] at hsplit
          exact absurd hsplit.symm (by simp)
      · have hne : cr.constructors.isEmpty = false :=
          List.isEmpty_eq_false_iff_exists_mem.mpr
            (by rcases List.exists_mem_of_ne_nil cr.constructors hempty with ⟨x, hx⟩
                exact ⟨x, hx⟩)
        constructor
        · intro h
          simp only [ClassRegistry.call_constructor_with_args, hfind, hne,
            Bool.false_eq_true, if_false] at h
          cases htry : tryConstructors cr.constructors args with
          | none => rw [htry] at h; cases h
          | some r2 =>
            rw [htry] at h
            cases h
            exact (tryConstructors_eq_some_iff args r cr.constructors).mp htry
        · intro hex
          have htry := (tryConstructors_eq_some_iff args r cr.constructors).mpr hex
          simp [ClassRegistry.call_constructor_with_args, hfind, hne, htry]
    · intro hempty
      have hne : cr.constructors.isEmpty = false :=
        List.isEmpty_eq_false_iff_exists_mem.mpr
          (by rcases List.exists_mem_of_ne_nil cr.constructors hempty with ⟨x, hx⟩
              exact ⟨x, hx⟩)
      cases htry : tryConstructors cr.constructors args with
      | none =>
        have hall := (tryConstructors_eq_none_iff args cr.constructors).mp htry
        simp only [ClassRegistry.call_constructor_with_args, hfind, hne,
          Bool.false_eq_true, if_false, htry]
        exact iff_of_true trivial hall
      | some r =>
        constructor
        · intro h
          simp only [ClassRegistry.call_constructor_with_args, hfind, hne,
            Bool.false_eq_true, if_false, htry] at h
          cases h
        · intro hall
          obtain ⟨pre, c, suf, hsplit, -, hok⟩ :=
            (tryConstructors_eq_some_iff args r cr.constructors).mp htry
          obtain ⟨e, he⟩ := hall c (by rw [hsplit]; simp)
          rw [hok] at he
          cases he

/-- Sample constructor adapter: like a zero-parameter init declaration, it
accepts only an empty argument list and produces the value 0. -/
def ctorZero : CppFunction := CppFunction.fromLambda (fun args =>
  if args.size = 0 then .ok (IValue.int 0)
  else .error (.arityError ("Default constructor expects 0 arguments, got "
    ++ toString args.size)))

/-- Sample constructor adapter: like a one-parameter init declaration, it
requires exactly one argument, converts it to an integer and returns it. -/
def ctorOne : CppFunction := CppFunction.fromLambda (fun args =>
  if args.size = 1 then
    match args.get .cint 0 with
    | .ok v => .ok v
    | .error e => .error e
  else .error (.arityError ("Constructor argument count mismatch: expected 1, got "
    ++ toString args.size)))

/-- Sample class registration holding the two sample constructors in
registration order. -/
def crCounter : ClassRegistration :=
  ⟨"ns", "Counter", "ns::Counter", [ctorZero, ctorOne], [], []⟩

/-- Sample class registry holding the sample class. -/
def regCounter : ClassRegistry := ⟨[("ns::Counter", crCounter)]⟩

/-- C2 witness: on the two-constructor sample class, a one-integer argument
list is rejected by the first constructor and accepted by the second, an
empty argument list short-circuits to the first, and a two-string argument
list exhausts both and surfaces NoMatchingOverload. -/
theorem C2_witness :
  ClassRegistry.call_constructor_with_args regCounter ("ns::Counter")
      ⟨[IValue.int 5]⟩ = .ok ⟨IValue.int 5⟩
  ∧ ClassRegistry.call_constructor_with_args regCounter ("ns::Counter")
      ⟨[]⟩ = .ok ⟨IValue.int 0⟩
  ∧ ClassRegistry.call_constructor_with_args regCounter ("ns::Counter")
      ⟨[IValue.str ("x"), IValue.str ("y")]⟩
      = .error (.noMatchingOverload
          ("No suitable constructor found for ns::Counter")) :=
  ⟨(((C2_constructor_overload_resolution regCounter ("ns::Counter")
        ⟨[IValue.int 5]⟩).2.2 crCounter rfl).1 ⟨IValue.int 5⟩).mpr
      ⟨[ctorZero], ctorOne, [], rfl,
        (by
          intro c2 hc2
          rcases List.mem_singleton.mp hc2 with rfl
          exact ⟨_, rfl⟩),
        rfl⟩,
   (((C2_constructor_overload_resolution regCounter ("ns::Counter")
        ⟨[]⟩).2.2 crCounter rfl).1 ⟨IValue.int 0⟩).mpr
      ⟨[], ctorZero, [ctorOne], rfl, by simp, rfl⟩,
   ((((C2_constructor_overload_resolution regCounter ("ns::Counter")
        ⟨[IValue.str ("x"), IValue.str ("y")]⟩).2.2 crCounter rfl).2
      (by simp [crCounter])).mpr
      (by
        intro c hc
        simp only [crCounter] at hc
        rcases List.mem_cons.mp hc with rfl | hc
        · exact ⟨_, rfl⟩
        · rcases List.mem_singleton.mp hc with rfl
          exact ⟨_, rfl⟩))⟩

/-- Sample operator implementation that always succeeds with the value 7. -/
def okImpl : CppFunction := ⟨some (fun _ => .ok ⟨IValue.int 7⟩)⟩

/-- Sample operator implementation that always fails with the message
boom. -/
def boomImpl : CppFunction := ⟨some (fun _ => .error (.userError ("boom")))⟩

/-- Sample operator registered under CPU only, succeeding. -/
def opCpuOnly : OperatorRegistration :=
  ⟨"ns::c", "", [(DispatchKey.CPU, okImpl)]⟩

/-- Sample operator registry holding only the succeeding CPU-only
operator. -/
def regCpuOnly : OperatorRegistry := ⟨[("ns::c", opCpuOnly)]⟩

/-- Sample operator registered under CPU only, failing. -/
def opBoomCpu : OperatorRegistration :=
  ⟨"ns::f", "", [(DispatchKey.CPU, boomImpl)]⟩

/-- Sample operator registry holding only the failing CPU-only operator. -/
def regBoomCpu : OperatorRegistry := ⟨[("ns::f", opBoomCpu)]⟩

/-- Sample operator with a failing CPU implementation, under one name. -/
def opBoomAlpha : OperatorRegistration :=
  ⟨"ns::alpha", "", [(DispatchKey.CPU, boomImpl)]⟩

/-- Sample operator with a failing CUDA implementation, under another
name. -/
def opBoomBeta : OperatorRegistration :=
  ⟨"ns::beta", "", [(DispatchKey.CUDA, boomImpl)]⟩

/-- Sample operator registry holding the two failing operators. -/
def regTwoBoom : OperatorRegistry :=
  ⟨[("ns::alpha", opBoomAlpha), ("ns::beta", opBoomBeta)]⟩

/-- Sample operator with a failing CUDA implementation and a succeeding CPU
implementation. -/
def opMixed : OperatorRegistration :=
  ⟨"ns::mix", "", [(DispatchKey.CUDA, boomImpl), (DispatchKey.CPU, okImpl)]⟩

/-- Sample operator registry holding the mixed operator. -/
def regMixed : OperatorRegistry := ⟨[("ns::mix", opMixed)]⟩

/-- C1: the typed-argument execution path resolves exactly as claimed: an
unregistered qualified name fails with the NotFound kind; an implementation
registered under the requested key is the one invoked, on the given
arguments; when the requested key has no entry and is not CPU, the CPU
implementation is invoked with the same arguments; and when neither entry
exists the call fails with the OperatorNotImplemented kind naming the
qualified name and requested key. -/
theorem C1_dispatch_resolution (reg : OperatorRegistry) (q : String)
    (key : DispatchKey) (args : FunctionArgs) :
  (reg.find_operator q = Option.none →
    reg.execute_operator_with_args q key args
      = .error (.notFound ("Operator " ++ q ++ " not found!")))
  ∧ (∀ op impl, reg.find_operator q = some op →
      mapFind key op.implementations = some impl →
      reg.execute_operator_with_args q key args
        = execWrap (impl.call_with_args args))
  ∧ (∀ op impl, reg.find_operator q = some op →
      mapFind key op.implementations = Option.none →
      key ≠ DispatchKey.CPU →
      mapFind DispatchKey.CPU op.implementations = some impl →
      reg.execute_operator_with_args q key args
        = fallbackWrap (impl.call_with_args args))
  ∧ (∀ op, reg.find_operator q = some op →
      mapFind key op.implementations = Option.none →
      mapFind DispatchKey.CPU op.implementations = Option.none →
      reg.execute_operator_with_args q key args
        = .error (.operatorNotImplemented ("No implementation found for "
            ++ q ++ " with " ++ dispatch_key_to_string key))) := by
  refine ⟨?_, ?_, ?_, ?_⟩
  · intro h
    simp [OperatorRegistry.execute_operator_with_args, h]
  · intro op impl hop himpl
    simp [OperatorRegistry.execute_operator_with_args, hop, himpl]
  · intro op impl hop hnone hkey hcpu
    simp [OperatorRegistry.execute_operator_with_args, hop, hnone, hkey, hcpu]
  · intro op hop hnone hcpu
    by_cases hk : key = DispatchKey.CPU
    · subst hk
      simp [OperatorRegistry.execute_operator_with_args, hop, hnone]
    · simp [OperatorRegistry.execute_operator_with_args, hop, hnone, hk, hcpu]

/-- C1 witness: on the succeeding CPU-only sample operator, a CUDA call
falls back to the CPU implementation, a CPU call invokes it directly and
both produce the value 7; an unregistered name fails with the NotFound
message. -/
theorem C1_witness :
  OperatorRegistry.execute_operator_with_args regCpuOnly ("ns::c")
      DispatchKey.CUDA ⟨[]⟩ = fallbackWrap (okImpl.call_with_args ⟨[]⟩)
  ∧ OperatorRegistry.execute_operator_with_args regCpuOnly ("ns::c")
      DispatchKey.CPU ⟨[]⟩ = execWrap (okImpl.call_with_args ⟨[]⟩)
  ∧ OperatorRegistry.execute_operator_with_args regCpuOnly ("ns::miss")
      DispatchKey.CPU ⟨[]⟩
      = .error (.notFound ("Operator ns::miss not found!"))
  ∧ fallbackWrap (okImpl.call_with_args ⟨[]⟩) = .ok ⟨IValue.int 7⟩ :=
  ⟨(C1_dispatch_resolution regCpuOnly ("ns::c") DispatchKey.CUDA ⟨[]⟩).2.2.1
      opCpuOnly okImpl rfl rfl (by decide) rfl,
   (C1_dispatch_resolution regCpuOnly ("ns::c") DispatchKey.CPU ⟨[]⟩).2.1
      opCpuOnly okImpl rfl rfl,
   (C1_dispatch_resolution regCpuOnly ("ns::miss") DispatchKey.CPU ⟨[]⟩).1 rfl,
   rfl⟩

/-- C3 counterexample: an operator whose only implementation is registered
under CPU and fails: the call under CUDA does not succeed (it fails through
the fallback with the fallback prefix), and the direct CPU call fails with a
different message, so the two results are not even equal. -/
theorem C3_counterexample :
  OperatorRegistry.execute_operator_with_args regBoomCpu ("ns::f")
      DispatchKey.CUDA ⟨[]⟩
      = .error (.execFailed ("Error executing operator (CPU fallback): boom"))
  ∧ OperatorRegistry.execute_operator_with_args regBoomCpu ("ns::f")
      DispatchKey.CPU ⟨[]⟩
      = .error (.execFailed ("Error executing operator: boom")) :=
  ⟨rfl, rfl⟩

/-- C3 amended: for an operator whose only implementation is registered
under CPU, calling under any other key falls back to the CPU implementation
on the same arguments: whenever the direct CPU call succeeds the call under
the other key succeeds with the same result, and when the CPU implementation
fails both calls fail, with different context prefixes on the same
underlying message. -/
theorem C3_cpu_only_fallback (reg : OperatorRegistry) (q : String)
    (key : DispatchKey) (args : FunctionArgs) (op : OperatorRegistration)
    (impl : CppFunction)
    (hop : reg.find_operator q = some op)
    (hcpu : mapFind DispatchKey.CPU op.implementations = some impl)
    (honly : ∀ k, k ≠ DispatchKey.CPU →
      mapFind k op.implementations = Option.none)
    (hkey : key ≠ DispatchKey.CPU) :
  (∀ r, reg.execute_operator_with_args q DispatchKey.CPU args = .ok r →
    reg.execute_operator_with_args q key args = .ok r)
  ∧ (∀ e, impl.call_with_args args = .error e →
    reg.execute_operator_with_args q key args
      = .error (.execFailed ("Error executing operator (CPU fallback): "
          ++ e.msg))
    ∧ reg.execute_operator_with_args q DispatchKey.CPU args
      = .error (.execFailed ("Error executing operator: " ++ e.msg))) := by
  have hkeynone := honly key hkey
  have hCPUcall : reg.execute_operator_with_args q DispatchKey.CPU args
      = execWrap (impl.call_with_args args) := by
    simp [OperatorRegistry.execute_operator_with_args, hop, hcpu]
  have hKcall : reg.execute_operator_with_args q key args
      = fallbackWrap (impl.call_with_args args) := by
    simp [OperatorRegistry.execute_operator_with_args, hop, hkeynone, hkey, hcpu]
  constructor
  · intro r h
    rw [hCPUcall] at h
    rw [hKcall]
    cases himpl : impl.call_with_args args with
    | ok r0 =>
      rw [himpl] at h
      cases h
      rfl
    | error e =>
      rw [himpl] at h
      cases h
  · intro e he
    rw [hKcall, hCPUcall, he]
    exact ⟨rfl, rfl⟩

/-- C3 witness: on the succeeding CPU-only sample operator, the direct CPU
call succeeds with the value 7, so the CUDA call succeeds with the same
value. -/
theorem C3_witness :
  OperatorRegistry.execute_operator_with_args regCpuOnly ("ns::c")
      DispatchKey.CUDA ⟨[]⟩ = .ok ⟨IValue.int 7⟩ :=
  (C3_cpu_only_fallback regCpuOnly ("ns::c") DispatchKey.CUDA ⟨[]⟩
    opCpuOnly okImpl rfl rfl
    (by
      intro k hk
      cases k with
      | Undefined => rfl
      | CPU => exact absurd rfl hk
      | CUDA => rfl)
    (by decide)).1 ⟨IValue.int 7⟩ rfl

/-- C4 counterexample: two different operators failing under two different
dispatch keys produce the identical rethrown error, whose message is the
fixed prefix plus the original message only: it contains neither the
qualified name nor the dispatch key, so the carried context cannot identify
them. -/
theorem C4_counterexample :
  OperatorRegistry.execute_operator_with_args regTwoBoom ("ns::alpha")
      DispatchKey.CPU ⟨[]⟩
      = .error (.execFailed ("Error executing operator: boom"))
  ∧ OperatorRegistry.execute_operator_with_args regTwoBoom ("ns::beta")
      DispatchKey.CUDA ⟨[]⟩
      = .error (.execFailed ("Error executing operator: boom"))
  ∧ occursIn ("ns::alpha").data ("Error executing operator: boom").data = false
  ∧ occursIn ("CPU").data ("Error executing operator: boom").data = false
  ∧ occursIn ("CUDA").data ("Error executing operator: boom").data = false := by
  refine ⟨rfl, rfl, ?_, ?_, ?_⟩ <;> decide

/-- C4 amended: whenever the implementation invoked by the typed-argument
path fails, the call fails (never a success or a boolean), rethrown as a new
error whose message is a fixed prefix (plain, or CPU-fallback) concatenated
with the original message; the qualified name and the dispatch key are not
added to the rethrown error. -/
theorem C4_failure_rewrap (reg : OperatorRegistry) (q : String)
    (key : DispatchKey) (args : FunctionArgs) (op : OperatorRegistration)
    (hop : reg.find_operator q = some op) :
  (∀ impl e, mapFind key op.implementations = some impl →
    impl.call_with_args args = .error e →
    reg.execute_operator_with_args q key args
      = .error (.execFailed ("Error executing operator: " ++ e.msg)))
  ∧ (∀ impl e, mapFind key op.implementations = Option.none →
    key ≠ DispatchKey.CPU →
    mapFind DispatchKey.CPU op.implementations = some impl →
    impl.call_with_args args = .error e →
    reg.execute_operator_with_args q key args
      = .error (.execFailed ("Error executing operator (CPU fallback): "
          ++ e.msg))) := by
  constructor
  · intro impl e himpl he
    simp [OperatorRegistry.execute_operator_with_args, hop, himpl, he,
      execWrap]
  · intro impl e hnone hkey hcpu he
    simp [OperatorRegistry.execute_operator_with_args, hop, hnone, hkey,
      hcpu, he, fallbackWrap]

/-- C4 witness: concrete failing calls through the exact-match path and
through the CPU-fallback path, each rewrapped with its prefix and the
original message. -/
theorem C4_witness :
  OperatorRegistry.execute_operator_with_args regTwoBoom ("ns::alpha")
      DispatchKey.CPU ⟨[IValue.int 1]⟩
      = .error (.execFailed ("Error executing operator: boom"))
  ∧ OperatorRegistry.execute_operator_with_args regBoomCpu ("ns::f")
      DispatchKey.CUDA ⟨[IValue.int 1]⟩
      = .error (.execFailed ("Error executing operator (CPU fallback): boom")) :=
  ⟨(C4_failure_rewrap regTwoBoom ("ns::alpha") DispatchKey.CPU
      ⟨[IValue.int 1]⟩ opBoomAlpha rfl).1 boomImpl (.userError ("boom"))
      rfl rfl,
   (C4_failure_rewrap regBoomCpu ("ns::f") DispatchKey.CUDA
      ⟨[IValue.int 1]⟩ opBoomCpu rfl).2 boomImpl (.userError ("boom"))
      rfl (by decide) rfl rfl⟩

/-- C9: when an implementation is registered under the requested key and its
invocation fails, both entry points report the failure without consulting
the CPU entry: the boolean probe returns false and the typed-argument path
propagates the rewrapped error, whatever the CPU entry holds. -/
theorem C9_no_fallback_after_failure (reg : OperatorRegistry) (q : String)
    (key : DispatchKey) (op : OperatorRegistration) (impl : CppFunction)
    (hop : reg.find_operator q = some op)
    (himpl : mapFind key op.implementations = some impl) :
  (∀ e, impl.call_with_args ⟨[]⟩ = .error e →
    reg.execute_operator q key = false)
  ∧ (∀ args e, impl.call_with_args args = .error e →
    reg.execute_operator_with_args q key args
      = .error (.execFailed ("Error executing operator: " ++ e.msg))) := by
  constructor
  · intro e he
    simp [OperatorRegistry.execute_operator, hop, himpl, he, okBool]
  · intro args e he
    simp [OperatorRegistry.execute_operator_with_args, hop, himpl, he,
      execWrap]

/-- C9 witness: on the sample operator whose CUDA implementation fails while
its CPU implementation would succeed, the CUDA probe returns false and the
CUDA typed call propagates the error, while the CPU entry alone does succeed
when addressed directly. -/
theorem C9_witness :
  OperatorRegistry.execute_operator regMixed ("ns::mix") DispatchKey.CUDA
      = false
  ∧ OperatorRegistry.execute_operator_with_args regMixed ("ns::mix")
      DispatchKey.CUDA ⟨[]⟩
      = .error (.execFailed ("Error executing operator: boom"))
  ∧ OperatorRegistry.execute_operator regMixed ("ns::mix") DispatchKey.CPU
      = true :=
  ⟨(C9_no_fallback_after_failure regMixed ("ns::mix") DispatchKey.CUDA
      opMixed boomImpl rfl rfl).1 (.userError ("boom")) rfl,
   (C9_no_fallback_after_failure regMixed ("ns::mix") DispatchKey.CUDA
      opMixed boomImpl rfl rfl).2 ⟨[]⟩ (.userError ("boom")) rfl,
   rfl⟩

/-- C10: declaring an instance method with a callable that is not a member
function pointer registers nothing and reports no failure (the builder
returns normally with the registry unchanged), and a subsequent method call
for that name on a registered class with no such method fails with the
MethodNotFound kind. -/
theorem C10_generic_method_noop (reg : ClassRegistry) (q m : String)
    (args : FunctionArgs) :
  classDefMethod reg q m MethodCallable.generic = .ok reg
  ∧ (∀ cr, mapFind q reg.classes = some cr →
      mapFind m cr.methods = Option.none →
      reg.call_method_with_args q m args
        = .error (.methodNotFound ("Method " ++ m ++ " not found in "
            ++ q ++ "!"))) := by
  constructor
  · rfl
  · intro cr h1 h2
    simp [ClassRegistry.call_method_with_args, h1, h2]

/-- Sample class registration with no methods. -/
def crWidget : ClassRegistration := ⟨"ns", "Widget", "ns::Widget", [], [], []⟩

/-- Sample class registry holding the method-free class. -/
def regWidget : ClassRegistry := ⟨[("ns::Widget", crWidget)]⟩

/-- C10 witness: on the method-free sample class, a generic-callable method
declaration is a silent no-op and the later method call fails with the
MethodNotFound message. -/
theorem C10_witness :
  classDefMethod regWidget ("ns::Widget") ("poke") MethodCallable.generic
      = .ok regWidget
  ∧ ClassRegistry.call_method_with_args regWidget ("ns::Widget") ("poke")
      ⟨[]⟩ = .error (.methodNotFound ("Method poke not found in ns::Widget!")) :=
  ⟨(C10_generic_method_noop regWidget ("ns::Widget") ("poke") ⟨[]⟩).1,
   (C10_generic_method_noop regWidget ("ns::Widget") ("poke") ⟨[]⟩).2
      crWidget rfl rfl⟩
